import Mathlib

/-!
Verification of the MakerDAO job-monitoring core
(`src/services/monitor.ts`, `src/services/ethereum.ts`,
`src/services/discord.ts`, `src/database/sqlite.ts`).

The TypeScript source is shallowly embedded: the per-entity state machine
of `MonitoringService.processJobStatus`, the bounded scan loop of
`monitoringLoop`, the retry wrapper `processBlockWithRetry`, the batch
eligibility check `EthereumService.checkMultipleJobsWorkable`, the alert
sink `DiscordService.sendAlert`, and the SQLite row encoding of
`SQLiteDatabase.upsertJob` / `getJob`.  Block numbers and counters are
`Nat` (JavaScript numbers used only at small non-negative magnitudes);
JavaScript truthiness of `0`, `''`, `undefined` and `null` is made
explicit wherever the source relies on it; thrown errors are `Except`
values carrying the error message; remote-call outcomes are passed in as
explicit parameters.
-/

namespace Monitoring

/-! ## Error-message classification (monitor.ts 220-223, ethereum.ts 153-155)

The source classifies errors as rate-limited (retryable) by substring
matching on the lower-cased message.  `String.toLower` and substring
search are re-implemented over `List Char` so that every classification
is kernel-computable. -/

/-- The `listStartsWith pat l` is true iff `pat` is an initial segment of `l`. -/
def listStartsWith : List Char → List Char → Bool
  | [], _ => true
  | _ :: _, [] => false
  | a :: as, b :: bs => a == b && listStartsWith as bs

/-- The `listContainsSeg pat l` is true iff `pat` occurs contiguously in `l`
(the JavaScript `String.prototype.includes`). -/
def listContainsSeg (pat : List Char) : List Char → Bool
  | [] => listStartsWith pat []
  | b :: bs => listStartsWith pat (b :: bs) || listContainsSeg pat bs

/-- Lower-cased character data of a message (`errorMsg.toLowerCase()`). -/
def lowerData (s : String) : List Char := s.data.map Char.toLower

/-- The `hasPat m pat`: the lower-cased message `m` includes the pattern. -/
def hasPat (m : List Char) (pat : String) : Bool := listContainsSeg pat.data m

/-- Rate-limit detection in `processBlockWithRetry` (monitor.ts 220-223):
`'rate limit' | 'too many requests' | '429' | '-32005'`. -/
def isRateLimitedMonitor (msg : String) : Bool :=
  let m := lowerData msg
  hasPat m "rate limit" || hasPat m "too many requests" ||
    hasPat m "429" || hasPat m "-32005"

/-- Rate-limit detection in `checkJobWorkable` / `checkMultipleJobsWorkable`
(ethereum.ts 153-155 and 186-188): `'too many requests' | 'rate limit' | '429'`. -/
def isRateLimitedEth (msg : String) : Bool :=
  let m := lowerData msg
  hasPat m "too many requests" || hasPat m "rate limit" || hasPat m "429"

/-! ## Data model (src/types: JobInfo, JobStatus; utils/config) -/

/-- The `JobStatus` (src/types): the result of one eligibility check of one
job at one block.  `error = some msg` is the per-entity error result
produced by the ethereum service. -/
structure JobStatus where
  address : String
  workable : Bool
  blockNumber : Nat
  error : Option String
deriving Repr, DecidableEq

/-- The `JobInfo` (src/types): the tracked per-entity state.  Optional fields
are `Option`; the source stores `undefined` for absence. -/
structure JobInfo where
  address : String
  name : Option String
  lastWorkedBlock : Option Nat
  consecutiveWorkableBlocks : Nat
  isCurrentlyWorkable : Bool
  lastCheckedBlock : Nat
  alertsSent : Nat
  lastAlertBlock : Option Nat
deriving Repr, DecidableEq

/-- The two configuration values the monitoring core reads
(`config.alertThresholdBlocks`, `config.maxBlocksPerQuery`). -/
structure Config where
  alertThresholdBlocks : Nat
  maxBlocksPerQuery : Nat
deriving Repr, DecidableEq

/-! ## Alert sink (discord.ts 13-40, monitor.ts 359-382) -/

/-- The `DiscordService.sendAlert` (discord.ts 13-40): performs the webhook
`fetch`; a network failure (`.error`) or a non-ok HTTP response
(`.ok false`) is caught inside the method, which then returns `false`;
it never throws.  `fetchResult` is the outcome of the `fetch` call:
`.error msg` for a rejected promise, `.ok respOk` for a response with
`response.ok = respOk`. -/
def discordSendAlert (fetchResult : Except String Bool) : Bool :=
  match fetchResult with
  | .ok respOk => if respOk then true else false
  | .error _ => false

/-! ## Per-entity state machine (monitor.ts 278-357)

`jobStatusUpdate` is the state transition performed by
`processJobStatus` on an already-loaded `JobInfo`, i.e. monitor.ts
294-344 together with the `sendAlert` call (which never throws, see
`discordSendAlert`; `MonitoringService.sendAlert` additionally wraps it
in a log-only `try/catch`, monitor.ts 376-381).  Parameters:

* `wasWorked` — outcome of `checkWorkTransactionInBlock` (consulted only
  on an eligible→not-eligible transition, monitor.ts 327-330);
* `sinkFetch` — outcome of the alert sink's `fetch` (consulted only when
  an alert fires).

Result: the updated `JobInfo`, whether an alert fired, and whether the
sink delivered.  JavaScript details mirrored exactly:

* `isWorkable = jobStatus.workable && !jobStatus.error` (line 295);
* the alert-suppression test (lines 312-317) evaluates
  `jobInfo.lastAlertBlock ? blockNumber - jobInfo.lastAlertBlock : Infinity`,
  so a stored `lastAlertBlock` of `0` is falsy and yields `Infinity`;
  the subtraction is JavaScript number subtraction, modelled on `Int`. -/
/-- The counter update in the eligible branch (monitor.ts 301-308):
`counter + 1` when already eligible, else `1`. -/
def nextCounter (wasWorkable : Bool) (counter : Nat) : Nat :=
  if wasWorkable then counter + 1 else 1

/-- The suppression test of monitor.ts 312-317:
`blocksSinceLastAlert = jobInfo.lastAlertBlock ? blockNumber - jobInfo.lastAlertBlock : Infinity`
followed by `blocksSinceLastAlert >= config.alertThresholdBlocks`.
A stored `lastAlertBlock` of `0` is JavaScript-falsy and thus yields
`Infinity`; the subtraction is JavaScript number subtraction (`Int`). -/
def suppressionAllows (threshold : Nat) (lastAlertBlock : Option Nat) (bn : Nat) : Bool :=
  match lastAlertBlock with
  | none => true
  | some la =>
    if la = 0 then true
    else decide ((threshold : Int) ≤ (bn : Int) - (la : Int))

/-- The complete alert decision of monitor.ts 311-317: the (updated)
counter has reached the threshold and the suppression window has passed. -/
def alertFires (cfg : Config) (counter : Nat) (lastAlertBlock : Option Nat) (bn : Nat) : Bool :=
  decide (cfg.alertThresholdBlocks ≤ counter) &&
    suppressionAllows cfg.alertThresholdBlocks lastAlertBlock bn

def jobStatusUpdate (cfg : Config) (jobInfo : JobInfo) (st : JobStatus)
    (blockNumber : Nat) (wasWorked : Bool) (sinkFetch : Except String Bool) :
    JobInfo × Bool × Bool :=
  let wasWorkable := jobInfo.isCurrentlyWorkable
  let isWorkable := st.workable && st.error.isNone
  let j1 : JobInfo :=
    { jobInfo with isCurrentlyWorkable := isWorkable, lastCheckedBlock := blockNumber }
  if isWorkable then
    let j2 : JobInfo :=
      { j1 with consecutiveWorkableBlocks :=
          nextCounter wasWorkable j1.consecutiveWorkableBlocks }
    if alertFires cfg j2.consecutiveWorkableBlocks j2.lastAlertBlock blockNumber then
      let delivered := discordSendAlert sinkFetch
      ({ j2 with alertsSent := j2.alertsSent + 1, lastAlertBlock := some blockNumber },
        true, delivered)
    else (j2, false, false)
  else
    let j3 : JobInfo :=
      if wasWorkable && wasWorked then { j1 with lastWorkedBlock := some blockNumber }
      else j1
    ({ j3 with consecutiveWorkableBlocks := 0 }, false, false)

/-- One observation fed to `processJobStatus` for one entity. -/
structure Obs where
  status : JobStatus
  blockNumber : Nat
  wasWorked : Bool
  sinkFetch : Except String Bool

/-- The eligibility bit as computed at monitor.ts 295:
`workable && !error`. -/
def eligibleObs (o : Obs) : Bool := o.status.workable && o.status.error.isNone

/-- Feed a finite sequence of observations to one entity through the
state machine of `processJobStatus`. -/
def runTracker (cfg : Config) (j : JobInfo) (obs : List Obs) : JobInfo :=
  obs.foldl
    (fun j o => (jobStatusUpdate cfg j o.status o.blockNumber o.wasWorked o.sinkFetch).1) j

/-- Length of the trailing run of `true` in an observation list
(the spec's "current trailing run of `true` values"). -/
def trailingRun (l : List Bool) : Nat :=
  l.foldl (fun acc b => if b then acc + 1 else 0) 0

example : trailingRun [true, false, true, true] = 2 := by decide

example :
    (jobStatusUpdate ⟨1000, 100⟩
      ⟨"a", none, none, 0, false, 0, 0, none⟩
      ⟨"a", true, 5, none⟩ 5 false (.ok true)).1.consecutiveWorkableBlocks = 1 := by
  decide

lemma trailingRun_append (l : List Bool) (b : Bool) :
    trailingRun (l ++ [b]) = if b then trailingRun l + 1 else 0 := by
  simp [trailingRun, List.foldl_append]

/-- On an eligible observation (`workable && !error`), the counter becomes
`old + 1` if the entity was already eligible and `1` otherwise, and the
eligibility flag becomes `true` (monitor.ts 301-308). -/
lemma jobStatusUpdate_eligible (cfg : Config) (j : JobInfo) (st : JobStatus)
    (bn : Nat) (w : Bool) (s : Except String Bool)
    (h : (st.workable && st.error.isNone) = true) :
    (jobStatusUpdate cfg j st bn w s).1.consecutiveWorkableBlocks =
      (if j.isCurrentlyWorkable then j.consecutiveWorkableBlocks + 1 else 1) ∧
    (jobStatusUpdate cfg j st bn w s).1.isCurrentlyWorkable = true := by
  unfold jobStatusUpdate
  simp only [h, if_true]
  refine ⟨?_, ?_⟩ <;>
  · repeat' split
    all_goals simp_all [nextCounter]

/-- On a not-eligible or errored observation the counter is reset to `0`
and the eligibility flag becomes `false` (monitor.ts 323-344). -/
lemma jobStatusUpdate_ineligible (cfg : Config) (j : JobInfo) (st : JobStatus)
    (bn : Nat) (w : Bool) (s : Except String Bool)
    (h : (st.workable && st.error.isNone) = false) :
    (jobStatusUpdate cfg j st bn w s).1.consecutiveWorkableBlocks = 0 ∧
    (jobStatusUpdate cfg j st bn w s).1.isCurrentlyWorkable = false := by
  unfold jobStatusUpdate
  simp only [h, Bool.false_eq_true, if_false]
  refine ⟨?_, ?_⟩ <;>
  · repeat' split
    all_goals simp_all

/-- Fold invariant for `runTracker`: the counter tracks the trailing run
of eligible observations and the flag tracks its non-emptiness. -/
lemma runTracker_invariant (cfg : Config) :
    ∀ (obs : List Obs) (j : JobInfo) (l : List Bool),
      j.consecutiveWorkableBlocks = trailingRun l →
      j.isCurrentlyWorkable = decide (0 < trailingRun l) →
      (runTracker cfg j obs).consecutiveWorkableBlocks =
          trailingRun (l ++ obs.map eligibleObs) ∧
      (runTracker cfg j obs).isCurrentlyWorkable =
          decide (0 < trailingRun (l ++ obs.map eligibleObs)) := by
  intro obs
  induction obs with
  | nil => intro j l h1 h2; simpa [runTracker] using ⟨h1, h2⟩
  | cons o rest ih =>
    intro j l h1 h2
    have hstep : runTracker cfg j (o :: rest) =
        runTracker cfg
          ((jobStatusUpdate cfg j o.status o.blockNumber o.wasWorked o.sinkFetch).1) rest := by
      simp [runTracker]
    rw [hstep]
    have hl : l ++ (o :: rest).map eligibleObs =
        (l ++ [eligibleObs o]) ++ rest.map eligibleObs := by simp
    rw [hl]
    cases he : eligibleObs o with
    | true =>
      have h := jobStatusUpdate_eligible cfg j o.status o.blockNumber o.wasWorked o.sinkFetch
        (by simpa [eligibleObs] using he)
      refine ih _ (l ++ [true]) ?_ ?_
      · rw [h.1, trailingRun_append, h1, h2]
        by_cases h0 : 0 < trailingRun l
        · simp [h0]
        · have hz : trailingRun l = 0 := by omega
          simp [hz]
      · rw [h.2, trailingRun_append]
        simp
    | false =>
      have h := jobStatusUpdate_ineligible cfg j o.status o.blockNumber o.wasWorked o.sinkFetch
        (by simpa [eligibleObs] using he)
      refine ih _ (l ++ [false]) ?_ ?_
      · rw [h.1, trailingRun_append]; simp
      · rw [h.2, trailingRun_append]; simp

/-- C1. For every finite sequence of per-unit check results
`(eligible, errored)` fed to one entity through `processJobStatus`
(starting from the freshly-initialized state of monitor.ts 133-140 /
284-291), after each observation `consecutiveWorkableBlocks` equals the
length of the current trailing run of `eligible && !errored`
observations; moreover the single-step transition sets the counter to
exactly `1` on a not-eligible→eligible transition, increments it by `1`
when already eligible and observed eligible again, and resets it to
exactly `0` on any not-eligible observation or evaluation error. -/
theorem claim_C1_counter_trailing_run (cfg : Config) (j0 : JobInfo) (obs : List Obs)
    (hflag : j0.isCurrentlyWorkable = false) (hcnt : j0.consecutiveWorkableBlocks = 0) :
    (∀ n : Nat, (runTracker cfg j0 (obs.take n)).consecutiveWorkableBlocks =
        trailingRun ((obs.take n).map eligibleObs)) ∧
    (∀ (j : JobInfo) (st : JobStatus) (bn : Nat) (w : Bool) (s : Except String Bool),
      j.isCurrentlyWorkable = false → (st.workable && st.error.isNone) = true →
      (jobStatusUpdate cfg j st bn w s).1.consecutiveWorkableBlocks = 1) ∧
    (∀ (j : JobInfo) (st : JobStatus) (bn : Nat) (w : Bool) (s : Except String Bool),
      j.isCurrentlyWorkable = true → (st.workable && st.error.isNone) = true →
      (jobStatusUpdate cfg j st bn w s).1.consecutiveWorkableBlocks =
        j.consecutiveWorkableBlocks + 1) ∧
    (∀ (j : JobInfo) (st : JobStatus) (bn : Nat) (w : Bool) (s : Except String Bool),
      (st.workable && st.error.isNone) = false →
      (jobStatusUpdate cfg j st bn w s).1.consecutiveWorkableBlocks = 0) := by
  refine ⟨?_, ?_, ?_, ?_⟩
  · intro n
    have h := runTracker_invariant cfg (obs.take n) j0 []
      (by simpa [trailingRun] using hcnt) (by simpa [trailingRun] using hflag)
    simpa using h.1
  · intro j st bn w s hj he
    rw [(jobStatusUpdate_eligible cfg j st bn w s he).1, hj]
    simp
  · intro j st bn w s hj he
    rw [(jobStatusUpdate_eligible cfg j st bn w s he).1, hj]
    simp
  · intro j st bn w s he
    exact (jobStatusUpdate_ineligible cfg j st bn w s he).1

/-- Concrete fixture: a threshold-3 configuration. -/
def cfgW : Config := ⟨3, 100⟩

/-- Concrete fixture: a freshly-initialized entity. -/
def jW : JobInfo := ⟨"0xabc", some "Job", none, 0, false, 10, 0, none⟩

/-- Concrete fixture: eligible, eligible, not-eligible, eligible. -/
def obsW : List Obs :=
  [⟨⟨"0xabc", true, 11, none⟩, 11, false, .ok true⟩,
   ⟨⟨"0xabc", true, 12, none⟩, 12, false, .ok true⟩,
   ⟨⟨"0xabc", false, 13, none⟩, 13, false, .ok true⟩,
   ⟨⟨"0xabc", true, 14, none⟩, 14, false, .ok true⟩]

theorem claim_C1_witness :
    jW.isCurrentlyWorkable = false ∧ jW.consecutiveWorkableBlocks = 0 ∧
    (runTracker cfgW jW (obsW.take 4)).consecutiveWorkableBlocks =
      trailingRun ((obsW.take 4).map eligibleObs) :=
  ⟨rfl, rfl, (claim_C1_counter_trailing_run cfgW jW obsW rfl rfl).1 4⟩

/-- The fired flag of one `processJobStatus` step, in closed form. -/
lemma jobStatusUpdate_fired (cfg : Config) (j : JobInfo) (st : JobStatus)
    (bn : Nat) (w : Bool) (s : Except String Bool) :
    (jobStatusUpdate cfg j st bn w s).2.1 =
      ((st.workable && st.error.isNone) &&
        alertFires cfg (nextCounter j.isCurrentlyWorkable j.consecutiveWorkableBlocks)
          j.lastAlertBlock bn) := by
  cases he : (st.workable && st.error.isNone) with
  | false =>
    simp only [jobStatusUpdate, he, Bool.false_eq_true, if_false, Bool.false_and]
  | true =>
    simp only [jobStatusUpdate, he, if_true, Bool.true_and]
    split <;> simp_all

/-- How one `processJobStatus` step changes `alertsSent` and
`lastAlertBlock`: incremented and set to the current block exactly when
the alert fired, unchanged otherwise (monitor.ts 318-321). -/
lemma jobStatusUpdate_alert_fields (cfg : Config) (j : JobInfo) (st : JobStatus)
    (bn : Nat) (w : Bool) (s : Except String Bool) :
    ((jobStatusUpdate cfg j st bn w s).2.1 = true →
      (jobStatusUpdate cfg j st bn w s).1.alertsSent = j.alertsSent + 1 ∧
      (jobStatusUpdate cfg j st bn w s).1.lastAlertBlock = some bn) ∧
    ((jobStatusUpdate cfg j st bn w s).2.1 = false →
      (jobStatusUpdate cfg j st bn w s).1.alertsSent = j.alertsSent ∧
      (jobStatusUpdate cfg j st bn w s).1.lastAlertBlock = j.lastAlertBlock) := by
  cases he : (st.workable && st.error.isNone) with
  | false =>
    simp only [jobStatusUpdate, he, Bool.false_eq_true, if_false]
    constructor
    · intro hc
      simp at hc
    · intro hc
      constructor <;> split <;> rfl
  | true =>
    simp only [jobStatusUpdate, he, if_true]
    constructor <;>
    · intro hc
      revert hc
      split <;> simp_all

/-- While the suppression window of a recorded alert at `la ≥ 1` is
open (every observed block has `bn < la + threshold`), no further alert
fires: `alertsSent` and `lastAlertBlock` are preserved by any run of
observations, eligible or not. -/
lemma runTracker_no_refire (cfg : Config) (la : Nat) (hla : 1 ≤ la) :
    ∀ (obs : List Obs) (j : JobInfo), j.lastAlertBlock = some la →
      (∀ o ∈ obs, (o.blockNumber : Int) < (la : Int) + (cfg.alertThresholdBlocks : Int)) →
      (runTracker cfg j obs).alertsSent = j.alertsSent ∧
      (runTracker cfg j obs).lastAlertBlock = some la := by
  intro obs
  induction obs with
  | nil => intro j hj _; simp [runTracker, hj]
  | cons o rest ih =>
    intro j hj hbn
    have hla0 : la ≠ 0 := by omega
    have hsup : suppressionAllows cfg.alertThresholdBlocks j.lastAlertBlock o.blockNumber
        = false := by
      rw [hj]
      have hbo := hbn o (List.mem_cons_self o rest)
      simp only [suppressionAllows, hla0, if_false, decide_eq_false_iff_not]
      omega
    have hfire : (jobStatusUpdate cfg j o.status o.blockNumber o.wasWorked o.sinkFetch).2.1
        = false := by
      rw [jobStatusUpdate_fired, alertFires, hsup]
      simp
    have hfields :=
      (jobStatusUpdate_alert_fields cfg j o.status o.blockNumber o.wasWorked o.sinkFetch).2
        hfire
    have hstep : runTracker cfg j (o :: rest) =
        runTracker cfg
          ((jobStatusUpdate cfg j o.status o.blockNumber o.wasWorked o.sinkFetch).1) rest := by
      simp [runTracker]
    rw [hstep]
    have hrest := ih ((jobStatusUpdate cfg j o.status o.blockNumber o.wasWorked o.sinkFetch).1)
      (by rw [hfields.2, hj]) (fun o' ho' => hbn o' (List.mem_cons_of_mem o ho'))
    exact ⟨by rw [hrest.1, hfields.1], hrest.2⟩

/-- Concrete fixture for the C2 counterexample: threshold 5. -/
def cfgC2 : Config := ⟨5, 100⟩

/-- Concrete fixture for the C2 counterexample: an entity whose most
recent alert is recorded at unit `0` (`lastAlertBlock = some 0`) and
whose counter is one short of the threshold. -/
def jC2 : JobInfo := ⟨"0xa", none, none, 4, true, 1, 1, some 0⟩

/-- Concrete fixture: an eligible observation at block 2. -/
def stC2 : JobStatus := ⟨"0xa", true, 2, none⟩

/-- C2, counterexample to the claim as stated.  The claim requires
that an alert fires only if no alert was ever sent or
`U - lastAlertUnit ≥ T`.  Here an alert was sent (`alertsSent = 1`,
recorded at `lastAlertBlock = 0`), the current unit is `U = 2` with
`U - 0 = 2 < 5 = T`, and yet the code fires: monitor.ts 312-314
evaluates `jobInfo.lastAlertBlock ? ... : Infinity`, and a recorded
alert block of `0` is JavaScript-falsy and is treated as never-alerted. -/
theorem claim_C2_counterexample :
    (jobStatusUpdate cfgC2 jC2 stC2 2 false (.ok true)).2.1 = true ∧
    jC2.alertsSent = 1 ∧ jC2.lastAlertBlock = some 0 ∧
    ((2 : Int) - (0 : Int) < (cfgC2.alertThresholdBlocks : Int)) :=
  ⟨by decide, rfl, rfl, by decide⟩

/-- C2 (amended).  For every entity state and current unit `U` with
threshold `T`, an alert fires at `U` iff the observation is eligible,
the updated counter is `≥ T`, and the `lastAlertBlock` field is absent
or `0` (both JavaScript-falsy, treated as never-alerted) or
`U - lastAlertBlock ≥ T`.  When it fires, `alertsSent` is incremented by
exactly `1` and `lastAlertBlock` is set to `U`; when it does not fire
both fields are unchanged.  Furthermore, once an alert is recorded at a
unit `la ≥ 1`, no further alert fires at any unit `< la + T`, even under
continuous eligibility. -/
theorem claim_C2_alert_fire_suppression (cfg : Config) (j : JobInfo) (st : JobStatus)
    (bn : Nat) (w : Bool) (s : Except String Bool) :
    ((jobStatusUpdate cfg j st bn w s).2.1 = true ↔
      ((st.workable && st.error.isNone) = true ∧
       cfg.alertThresholdBlocks ≤ (jobStatusUpdate cfg j st bn w s).1.consecutiveWorkableBlocks ∧
       (j.lastAlertBlock = none ∨ j.lastAlertBlock = some 0 ∨
        (∃ la, j.lastAlertBlock = some la ∧
          (cfg.alertThresholdBlocks : Int) ≤ (bn : Int) - (la : Int))))) ∧
    ((jobStatusUpdate cfg j st bn w s).2.1 = true →
      (jobStatusUpdate cfg j st bn w s).1.alertsSent = j.alertsSent + 1 ∧
      (jobStatusUpdate cfg j st bn w s).1.lastAlertBlock = some bn) ∧
    ((jobStatusUpdate cfg j st bn w s).2.1 = false →
      (jobStatusUpdate cfg j st bn w s).1.alertsSent = j.alertsSent ∧
      (jobStatusUpdate cfg j st bn w s).1.lastAlertBlock = j.lastAlertBlock) ∧
    (∀ (la : Nat), 1 ≤ la →
      ∀ (obs : List Obs) (j' : JobInfo), j'.lastAlertBlock = some la →
        (∀ o ∈ obs, (o.blockNumber : Int) < (la : Int) + (cfg.alertThresholdBlocks : Int)) →
        (runTracker cfg j' obs).alertsSent = j'.alertsSent ∧
        (runTracker cfg j' obs).lastAlertBlock = some la) := by
  refine ⟨?_, (jobStatusUpdate_alert_fields cfg j st bn w s).1,
    (jobStatusUpdate_alert_fields cfg j st bn w s).2,
    fun la hla obs j' h1 h2 => runTracker_no_refire cfg la hla obs j' h1 h2⟩
  rw [jobStatusUpdate_fired]
  cases he : (st.workable && st.error.isNone) with
  | false =>
    simp only [Bool.false_and, Bool.false_eq_true, false_iff]
    intro hc
    exact absurd hc.1 (by simp)
  | true =>
    have hcnt := (jobStatusUpdate_eligible cfg j st bn w s he).1
    simp only [Bool.true_and, true_and, hcnt]
    rw [alertFires]
    cases hla : j.lastAlertBlock with
    | none =>
      simp [suppressionAllows, nextCounter]
    | some la =>
      by_cases h0 : la = 0
      · subst h0
        simp [suppressionAllows, nextCounter]
      · simp only [suppressionAllows, h0, if_false, Bool.and_eq_true, decide_eq_true_eq,
          Option.some.injEq, nextCounter]
        constructor
        · rintro ⟨hth, hsub⟩
          exact ⟨by split_ifs at hth ⊢ <;> omega, .inr (.inr ⟨la, rfl, hsub⟩)⟩
        · rintro ⟨hth, h⟩
          refine ⟨by split_ifs at hth ⊢ <;> omega, ?_⟩
          rcases h with h | h | ⟨la', hla', hsub⟩ <;> simp_all

theorem claim_C2_witness :
    (jobStatusUpdate cfgW ⟨"0xb", none, none, 2, true, 12, 0, none⟩
        ⟨"0xb", true, 13, none⟩ 13 false (.ok true)).2.1 = true ∧
    (jobStatusUpdate cfgW ⟨"0xb", none, none, 2, true, 12, 0, none⟩
        ⟨"0xb", true, 13, none⟩ 13 false (.ok true)).1.alertsSent = 1 ∧
    (jobStatusUpdate cfgW ⟨"0xb", none, none, 2, true, 12, 0, none⟩
        ⟨"0xb", true, 13, none⟩ 13 false (.ok true)).1.lastAlertBlock = some 13 := by
  have h := claim_C2_alert_fire_suppression cfgW ⟨"0xb", none, none, 2, true, 12, 0, none⟩
    ⟨"0xb", true, 13, none⟩ 13 false (.ok true)
  have hfired : (jobStatusUpdate cfgW ⟨"0xb", none, none, 2, true, 12, 0, none⟩
      ⟨"0xb", true, 13, none⟩ 13 false (.ok true)).2.1 = true := by
    exact h.1.mpr ⟨by decide, by decide, .inl rfl⟩
  exact ⟨hfired, (h.2.1 hfired).1, (h.2.1 hfired).2⟩

/-! ## The per-tick scan (monitor.ts 148-276) over the durable store

`SQLiteDatabase` (sqlite.ts) has two layers: the in-memory sql.js
database mutated by `db.run`, and the database file that `save()`
(sqlite.ts 59-63) refreshes by exporting the **whole** in-memory
database and handing it to `fs.writeFileSync`.  `getJob` reads the
in-memory layer.  Both layers are modelled as maps from job address to
the stored entity record (rows are kept at the decoded `JobInfo` level;
the `||`-coercions of the row codec are the subject of C10 and are
immaterial to the tick claims).  Remote outcomes are parameters:
`batches bn` is the settled outcome of `checkMultipleJobsWorkable` for
block `bn` (after `processBlockWithRetry` has finished retrying — every
failed attempt leaves the store untouched, so only the final outcome
matters for state), `wasWorkedF`/`sinkF` give the auxiliary query and
alert-sink outcomes, and `upsertOutcome a` says how the store's
`upsertJob` behaves for entity `a`. -/

/-- One layer of the store: job address to stored entity record. -/
def DBm : Type := String → Option JobInfo

/-- The two layers of `SQLiteDatabase`: the in-memory sql.js database
and the contents of the database file last written by a successful
`save()`. -/
structure StoreState where
  mem : DBm
  file : DBm

/-- How one `upsertJob` call behaves: succeeds; or `db.run` throws; or
`db.run` succeeds and the `save()` file write throws. -/
inductive UpsertOutcome where
  | ok
  | runFails
  | saveFails
deriving Repr, DecidableEq

/-- Lazy initialization of an entity missing from the store
(monitor.ts 282-292). -/
def initJob (getName : String → String) (address : String) (bn : Nat) : JobInfo :=
  { address := address, name := some (getName address), lastWorkedBlock := none,
    consecutiveWorkableBlocks := 0, isCurrentlyWorkable := false,
    lastCheckedBlock := bn, alertsSent := 0, lastAlertBlock := none }

/-- The entity as read back by `getJob` from the in-memory database,
with the lazy initialization of monitor.ts 282-292 when absent. -/
def loadJob (getName : String → String) (m : DBm) (address : String) (bn : Nat) : JobInfo :=
  match m address with
  | some ji => ji
  | none => initJob getName address bn

/-- The `SQLiteDatabase.upsertJob` (sqlite.ts 65-106) against the two-layer
store.  The try body is `this.db.run(query, params); this.save();`
(lines 93-95):

* if `db.run` throws, the in-memory database is unchanged and `save` is
  never reached — nothing is committed anywhere;
* if `run` succeeds, the in-memory database now holds the row; `save()`
  then exports the whole in-memory database and writes it to the file
  with `fs.writeFileSync` — if that write throws, the in-memory update
  **stays** (only the file is stale);
* on success the file becomes a copy of the updated in-memory database
  (including any rows whose earlier `save` had failed).

Returns the new store and whether the call raised. -/
def upsertJobState (outcome : UpsertOutcome) (s : StoreState) (j : JobInfo) :
    StoreState × Bool :=
  match outcome with
  | .runFails => (s, true)
  | .saveFails => ({ mem := Function.update s.mem j.address (some j),
                     file := s.file }, true)
  | .ok =>
    let m := Function.update s.mem j.address (some j)
    ({ mem := m, file := m }, false)

/-- The `processJobStatus` (monitor.ts 278-357) acting on the store: read
the entity from the in-memory database (or initialize it lazily), run
the state machine, then upsert.  The whole body is wrapped in a
`try/catch` that only logs (monitor.ts 350-356), so when `upsertJob`
raises the method still returns normally, keeping whatever the store
already holds — in-memory changes made before the raise (the
save-failure mode) are **not** rolled back. -/
def processJobStatusDB (cfg : Config) (getName : String → String)
    (upsertOutcome : String → UpsertOutcome) (s : StoreState) (st : JobStatus) (bn : Nat)
    (wasWorked : Bool) (sinkFetch : Except String Bool) : StoreState :=
  let jobInfo := loadJob getName s.mem st.address bn
  let r := jobStatusUpdate cfg jobInfo st bn wasWorked sinkFetch
  (upsertJobState (upsertOutcome st.address) s r.1).1

/-- The `processBlock` (monitor.ts 257-276): one batch eligibility check for
all jobs, then `processJobStatus` for each result in order.  A thrown
batch check (`.error`) is re-thrown (line 274) before any entity is
processed. -/
def processBlock (cfg : Config) (getName : String → String)
    (upsertOutcome : String → UpsertOutcome)
    (s : StoreState) (batch : Except String (List JobStatus)) (bn : Nat)
    (wasWorkedF : String → Bool) (sinkF : String → Except String Bool) :
    Except String StoreState :=
  match batch with
  | .error e => .error e
  | .ok statuses =>
    .ok (statuses.foldl
      (fun d st => processJobStatusDB cfg getName upsertOutcome d st bn
        (wasWorkedF st.address) (sinkF st.address)) s)

/-- One iteration of the block loop of `monitoringLoop`
(monitor.ts 175-190): `try { processBlockWithRetry; successfullyProcessed
= blockNum } catch { ...; successfullyProcessed = blockNum }` — the
cursor variable is set to the block number on success and on
failure, and on failure the store is untouched. -/
def tickStepDB (cfg : Config) (getName : String → String)
    (upsertOutcome : String → UpsertOutcome)
    (batches : Nat → Except String (List JobStatus))
    (wasWorkedF : Nat → String → Bool) (sinkF : Nat → String → Except String Bool)
    (s : StoreState) (bn : Nat) : StoreState :=
  match processBlock cfg getName upsertOutcome s (batches bn) bn (wasWorkedF bn) (sinkF bn) with
  | .ok s' => s'
  | .error _ => s

/-- The `monitoringLoop` (monitor.ts 148-209) for one tick, given the
observed head `H` and the cursor `L` (`lastProcessedBlock`): if
`H ≤ L` the tick returns immediately; otherwise it processes blocks
`L+1 .. L + min (H-L) maxBlocksPerQuery` in order, finally setting
`lastProcessedBlock := successfullyProcessed`. -/
def monitoringTick (cfg : Config) (getName : String → String)
    (upsertOutcome : String → UpsertOutcome)
    (batches : Nat → Except String (List JobStatus))
    (wasWorkedF : Nat → String → Bool) (sinkF : Nat → String → Except String Bool)
    (s : StoreState) (L H : Nat) : StoreState × Nat :=
  if H ≤ L then (s, L)
  else
    (List.range' (L + 1) (min (H - L) cfg.maxBlocksPerQuery)).foldl
      (fun acc bn =>
        (tickStepDB cfg getName upsertOutcome batches wasWorkedF sinkF acc.1 bn, bn))
      (s, L)

/-- A fold that records the iteration variable in the second component
ends with the last element of the range there. -/
lemma foldl_pair_last {α : Type} (g : α × Nat → Nat → α) :
    ∀ (n s : Nat) (p : α × Nat), n ≠ 0 →
      ((List.range' s n).foldl (fun acc bn => (g acc bn, bn)) p).2 = s + n - 1 := by
  intro n
  induction n with
  | zero => intro s p h; exact absurd rfl h
  | succ m ih =>
    intro s p _
    rw [List.range'_succ, List.foldl_cons]
    by_cases hm : m = 0
    · subst hm
      simp
    · rw [ih (s + 1) _ hm]
      omega

/-- The cursor reached by one tick with `L < H`: exactly
`L + min (H-L) maxBlocksPerQuery`, whatever the per-block outcomes. -/
lemma monitoringTick_cursor (cfg : Config) (getName : String → String)
    (upsertOutcome : String → UpsertOutcome)
    (batches : Nat → Except String (List JobStatus))
    (wasWorkedF : Nat → String → Bool) (sinkF : Nat → String → Except String Bool)
    (s : StoreState) (L H : Nat) (h : L < H) :
    (monitoringTick cfg getName upsertOutcome batches wasWorkedF sinkF s L H).2 =
      L + min (H - L) cfg.maxBlocksPerQuery := by
  unfold monitoringTick
  rw [if_neg (by omega)]
  by_cases hm : min (H - L) cfg.maxBlocksPerQuery = 0
  · simp [hm]
  · rw [foldl_pair_last _ _ _ _ hm]
    omega

/-- C3, counterexample to the claim as stated.  The claim says one
tick advances the cursor by `min(H-L, C)` *minus any skipped units*.
With cursor `L = 10`, head `H = 11`, cap `C = 100` and the single block
11 failing (and thus skipped), the code still advances the cursor to 11
(monitor.ts 186-189 sets `successfullyProcessed = blockNum` in the
`catch` branch too), while the claim's formula predicts
`10 + (min(1,100) - 1) = 10`. -/
theorem claim_C3_counterexample :
    (monitoringTick cfgW (fun _ => "J") (fun _ => .ok) (fun _ => .error "boom")
        (fun _ _ => false) (fun _ _ => .ok true) ⟨fun _ => none, fun _ => none⟩ 10 11).2 = 11 ∧
    (11 : Nat) ≠ 10 + (min (11 - 10) cfgW.maxBlocksPerQuery - 1) :=
  ⟨rfl, by decide⟩

/-- C3 (amended).  For every tick with observed head `H`, cursor `L`
and window cap `C = maxBlocksPerQuery`: if `H ≤ L` the tick is a no-op
and the cursor is unchanged; otherwise the tick processes exactly the
blocks `L+1 .. L + min(H-L, C)`, sequentially in strictly increasing
order, never issuing a query beyond that cap, and advances the cursor by
exactly `min(H-L, C)` — skipped units are still advanced past, they are
not subtracted. -/
theorem claim_C3_bounded_window (cfg : Config) (getName : String → String)
    (upsertOutcome : String → UpsertOutcome)
    (batches : Nat → Except String (List JobStatus))
    (wasWorkedF : Nat → String → Bool) (sinkF : Nat → String → Except String Bool)
    (s : StoreState) (L H : Nat) :
    (H ≤ L →
      monitoringTick cfg getName upsertOutcome batches wasWorkedF sinkF s L H = (s, L)) ∧
    (L < H →
      (monitoringTick cfg getName upsertOutcome batches wasWorkedF sinkF s L H).2 =
        L + min (H - L) cfg.maxBlocksPerQuery) ∧
    List.Pairwise (· < ·) (List.range' (L + 1) (min (H - L) cfg.maxBlocksPerQuery)) ∧
    (∀ u ∈ List.range' (L + 1) (min (H - L) cfg.maxBlocksPerQuery),
      L + 1 ≤ u ∧ u ≤ L + min (H - L) cfg.maxBlocksPerQuery) := by
  refine ⟨?_, ?_, List.pairwise_lt_range' (L + 1) (min (H - L) cfg.maxBlocksPerQuery), ?_⟩
  · intro h
    unfold monitoringTick
    rw [if_pos h]
  · intro h
    exact monitoringTick_cursor cfg getName upsertOutcome batches wasWorkedF sinkF s L H h
  · intro u hu
    rw [List.mem_range'_1] at hu
    omega

theorem claim_C3_witness :
    (monitoringTick cfgW (fun _ => "J") (fun _ => .ok) (fun _ => .ok [])
        (fun _ _ => false) (fun _ _ => .ok true) ⟨fun _ => none, fun _ => none⟩ 7 5 =
      (⟨fun _ => none, fun _ => none⟩, 7)) ∧
    (monitoringTick cfgW (fun _ => "J") (fun _ => .ok) (fun _ => .ok [])
        (fun _ _ => false) (fun _ _ => .ok true) ⟨fun _ => none, fun _ => none⟩ 5 9).2 =
      5 + min (9 - 5) cfgW.maxBlocksPerQuery :=
  ⟨(claim_C3_bounded_window cfgW (fun _ => "J") (fun _ => .ok) (fun _ => .ok [])
      (fun _ _ => false) (fun _ _ => .ok true) ⟨fun _ => none, fun _ => none⟩ 7 5).1
      (by decide),
   (claim_C3_bounded_window cfgW (fun _ => "J") (fun _ => .ok) (fun _ => .ok [])
      (fun _ _ => false) (fun _ _ => .ok true) ⟨fun _ => none, fun _ => none⟩ 5 9).2.1
      (by decide)⟩

/-- C6.  For every block whose processing fails — on any failed
attempt, in particular when the batch check raised and the unit is
skipped — the store is not modified for that block (no entity's
eligibility flag, counter, `lastCheckedBlock` or alert fields change),
the failure surfaces from `processBlock` (so the retry wrapper sees it),
and the cursor still advances past the skipped block so later blocks
are processed normally. -/
theorem claim_C6_skip_no_corruption (cfg : Config) (getName : String → String)
    (upsertOutcome : String → UpsertOutcome)
    (batches : Nat → Except String (List JobStatus))
    (wasWorkedF : Nat → String → Bool) (sinkF : Nat → String → Except String Bool)
    (s : StoreState) (L H bn : Nat) (e : String) :
    (processBlock cfg getName upsertOutcome s (.error e) bn (wasWorkedF bn) (sinkF bn) =
      .error e) ∧
    (batches bn = .error e →
      tickStepDB cfg getName upsertOutcome batches wasWorkedF sinkF s bn = s) ∧
    (L < H →
      (monitoringTick cfg getName upsertOutcome batches wasWorkedF sinkF s L H).2 =
        L + min (H - L) cfg.maxBlocksPerQuery) := by
  refine ⟨rfl, ?_, ?_⟩
  · intro hb
    unfold tickStepDB
    rw [hb]
    rfl
  · intro h
    exact monitoringTick_cursor cfg getName upsertOutcome batches wasWorkedF sinkF s L H h

theorem claim_C6_witness :
    (tickStepDB cfgW (fun _ => "J") (fun _ => .ok) (fun _ => .error "boom")
        (fun _ _ => false) (fun _ _ => .ok true) ⟨fun _ => none, fun _ => none⟩ 11 =
      (⟨fun _ => none, fun _ => none⟩ : StoreState)) ∧
    (monitoringTick cfgW (fun _ => "J") (fun _ => .ok) (fun _ => .error "boom")
        (fun _ _ => false) (fun _ _ => .ok true) ⟨fun _ => none, fun _ => none⟩ 10 12).2 =
      10 + min (12 - 10) cfgW.maxBlocksPerQuery :=
  ⟨(claim_C6_skip_no_corruption cfgW (fun _ => "J") (fun _ => .ok) (fun _ => .error "boom")
      (fun _ _ => false) (fun _ _ => .ok true) ⟨fun _ => none, fun _ => none⟩ 10 12 11
      "boom").2.1 rfl,
   (claim_C6_skip_no_corruption cfgW (fun _ => "J") (fun _ => .ok) (fun _ => .error "boom")
      (fun _ _ => false) (fun _ _ => .ok true) ⟨fun _ => none, fun _ => none⟩ 10 12 11
      "boom").2.2 (by decide)⟩

/-- Whether an `Except`-valued block result is a success. -/
def exceptIsOkDB : Except String StoreState → Bool :=
  fun r => match r with | .ok _ => true | .error _ => false

/-- Extract the store from a block result, defaulting to `d`. -/
def exceptGetDB (r : Except String StoreState) (d : StoreState) : StoreState :=
  match r with | .ok x => x | .error _ => d

/-- Fixture: job-name resolver. -/
def gnC5 : String → String := fun _ => "J"

/-- Fixture: for entity `"a"` the upsert's `save()` file write raises
after a successful `db.run`; every other upsert succeeds. -/
def uoC5 : String → UpsertOutcome := fun a => if a == "a" then .saveFails else .ok

/-- Fixture: empty store (both layers). -/
def s0C5 : StoreState := ⟨fun _ => none, fun _ => none⟩

/-- Fixture: eligible status for entity `"a"` at block 5. -/
def stA5 : JobStatus := ⟨"a", true, 5, none⟩

/-- Fixture: eligible status for entity `"b"` at block 5. -/
def stB5 : JobStatus := ⟨"b", true, 5, none⟩

/-- Fixture: the block-5 batch `[a, b]` processed against the empty
store, with the file write of `"a"`'s upsert raising. -/
def pbC5 : Except String StoreState :=
  processBlock cfgW gnC5 uoC5 s0C5 (.ok [stA5, stB5]) 5 (fun _ => false) (fun _ => .ok true)

/-- C5, counterexample to the claim as stated.  The claim says a
persistence write failure is *propagated so that it aborts the current
tick: the entity's state is not considered committed, and the next tick
re-derives from the last successfully persisted state*.  Here the
`save()` file write of entity `"a"`'s upsert raises after a successful
`db.run` (sqlite.ts 93-95), and every part of the claim fails:
`processBlock` returns success (nothing is propagated — the `catch` at
monitor.ts 350-356 only logs) and the tick goes on to entity `"b"`; the
raise notwithstanding, `"a"`'s update sits in the in-memory database,
so the very next `getJob` returns the updated row rather than
re-deriving from persisted state; and `"b"`'s successful upsert then
flushes the whole in-memory database (sqlite.ts 59-63), durably
persisting `"a"`'s "failed" write to the database file as well. -/
theorem claim_C5_counterexample :
    exceptIsOkDB pbC5 = true ∧
    (exceptGetDB pbC5 s0C5).mem "a" = some ⟨"a", some "J", none, 1, true, 5, 0, none⟩ ∧
    (exceptGetDB pbC5 s0C5).file "a" = some ⟨"a", some "J", none, 1, true, 5, 0, none⟩ ∧
    (exceptGetDB pbC5 s0C5).file "b" = some ⟨"b", some "J", none, 1, true, 5, 0, none⟩ :=
  ⟨rfl, by decide, by decide, by decide⟩

/-- C5 (amended).  A persistence write failure (the store's upsert
raising during a tick) is caught inside `processJobStatus` and only
logged: it is never propagated and never aborts the tick — an `.ok`
batch cannot produce an error, and processing continues with the
remaining entities.  What the raise means depends on where it happened
(sqlite.ts 93-95): if the SQL write itself (`db.run`) failed, the
entity's update is not applied anywhere, so later reads re-derive from
the last persisted state; if instead the file flush
(`save`/`writeFileSync`) failed after a successful `db.run`, the update
is already in the in-memory database — later reads in the same process
see it, the database file is unchanged until the next successful save,
and any next successful upsert flushes the whole in-memory database,
durably committing it.  The update is never rolled back. -/
theorem claim_C5_persistence_swallowed (cfg : Config) (getName : String → String)
    (upsertOutcome : String → UpsertOutcome) (s : StoreState) (st : JobStatus) (bn : Nat)
    (w : Bool) (sink : Except String Bool) (rest statuses : List JobStatus)
    (wasWorkedF : String → Bool) (sinkF : String → Except String Bool) (e : String) :
    (processBlock cfg getName upsertOutcome s (.ok statuses) bn wasWorkedF sinkF ≠
      .error e) ∧
    (upsertOutcome st.address = .runFails →
      processJobStatusDB cfg getName upsertOutcome s st bn w sink = s) ∧
    (upsertOutcome st.address = .runFails →
      processBlock cfg getName upsertOutcome s (.ok (st :: rest)) bn wasWorkedF sinkF =
        processBlock cfg getName upsertOutcome s (.ok rest) bn wasWorkedF sinkF) ∧
    (upsertOutcome st.address = .saveFails →
      (processJobStatusDB cfg getName upsertOutcome s st bn w sink).file = s.file ∧
      (processJobStatusDB cfg getName upsertOutcome s st bn w sink).mem =
        Function.update s.mem
          (jobStatusUpdate cfg (loadJob getName s.mem st.address bn) st bn w sink).1.address
          (some (jobStatusUpdate cfg (loadJob getName s.mem st.address bn) st bn w sink).1)) ∧
    (upsertOutcome st.address = .ok →
      (processJobStatusDB cfg getName upsertOutcome s st bn w sink).file =
        (processJobStatusDB cfg getName upsertOutcome s st bn w sink).mem) := by
  have hskip : ∀ (w' : Bool) (sink' : Except String Bool),
      upsertOutcome st.address = .runFails →
      processJobStatusDB cfg getName upsertOutcome s st bn w' sink' = s := by
    intro w' sink' h
    simp [processJobStatusDB, h, upsertJobState]
  refine ⟨?_, ?_, ?_, ?_, ?_⟩
  · simp [processBlock]
  · intro h
    exact hskip w sink h
  · intro h
    simp only [processBlock, List.foldl_cons, hskip (wasWorkedF st.address)
      (sinkF st.address) h]
  · intro h
    constructor <;> simp [processJobStatusDB, h, upsertJobState]
  · intro h
    simp [processJobStatusDB, h, upsertJobState]

theorem claim_C5_witness :
    processJobStatusDB cfgW gnC5 (fun _ => .runFails) s0C5 stA5 5 false (.ok true) =
      s0C5 ∧
    (processJobStatusDB cfgW gnC5 uoC5 s0C5 stA5 5 false (.ok true)).file = s0C5.file ∧
    (processJobStatusDB cfgW gnC5 (fun _ => .ok) s0C5 stB5 5 false (.ok true)).file =
      (processJobStatusDB cfgW gnC5 (fun _ => .ok) s0C5 stB5 5 false (.ok true)).mem :=
  ⟨(claim_C5_persistence_swallowed cfgW gnC5 (fun _ => .runFails) s0C5 stA5 5 false
      (.ok true) [stB5] [] (fun _ => false) (fun _ => .ok true) "e").2.1 rfl,
   ((claim_C5_persistence_swallowed cfgW gnC5 uoC5 s0C5 stA5 5 false
      (.ok true) [stB5] [] (fun _ => false) (fun _ => .ok true) "e").2.2.2.1 rfl).1,
   (claim_C5_persistence_swallowed cfgW gnC5 (fun _ => .ok) s0C5 stB5 5 false
      (.ok true) [stB5] [] (fun _ => false) (fun _ => .ok true) "e").2.2.2.2 rfl⟩

/-! ## Retry wrapper (monitor.ts 211-255) -/

/-- The backoff delay before the retry following failed attempt
`attempt` (monitor.ts 234): `Math.pow(3, attempt + 4) * 1000` ms. -/
def backoffDelay (attempt : Nat) : Nat := 3 ^ (attempt + 4) * 1000

/-- The message of the error raised when the retry budget is exhausted
(monitor.ts 254); it identifies the block. -/
def exhaustedMsg (blockNumber retries : Nat) : String :=
  "Failed to process block " ++ toString blockNumber ++ " after " ++
    toString retries ++ " attempts due to rate limiting"

/-- The `for` loop of `processBlockWithRetry` (monitor.ts 212-252) with
`fuel = retries - attempt` iterations remaining.  `attempts k` is the
outcome of the `k`-th call of `processBlock` (the only effect of a
failed attempt is the backoff delay; see `claim_C6` for the
no-state-change part).  Returns the backoff delays performed, in order,
and the final outcome: success, the first non-rate-limited error
re-thrown immediately, or the exhaustion error after the budget is
spent on rate-limited errors. -/
def retryLoopGo (attempts : Nat → Except String Unit) (blockNumber retries : Nat) :
    Nat → Nat → List Nat → List Nat × Except String Unit
  | 0, _, acc => (acc.reverse, .error (exhaustedMsg blockNumber retries))
  | fuel + 1, attempt, acc =>
    match attempts attempt with
    | .ok _ => (acc.reverse, .ok ())
    | .error msg =>
      if isRateLimitedMonitor msg then
        retryLoopGo attempts blockNumber retries fuel (attempt + 1)
          (backoffDelay attempt :: acc)
      else (acc.reverse, .error msg)

/-- The `processBlockWithRetry` (monitor.ts 211-255).  The source's `retries`
parameter defaults to `3` and is never overridden by any caller. -/
def processBlockWithRetry (attempts : Nat → Except String Unit) (blockNumber retries : Nat) :
    List Nat × Except String Unit :=
  retryLoopGo attempts blockNumber retries retries 0 []

/-- C4.  With the default budget of 3 attempts: a rate-limited
(Retryable) failure at attempt `k` waits `3^(k+4) * 1000` ms and
retries; any other (Fatal) failure is re-raised immediately with no
further attempts; after 3 rate-limited failures the wrapper raises the
exhaustion error identifying the block; and the outcome depends only on
the first 3 attempt outcomes (at most 3 attempts are made). -/
theorem claim_C4_retry_classification (a : Nat → Except String Unit) (bn : Nat) :
    (a 0 = .ok () → processBlockWithRetry a bn 3 = ([], .ok ())) ∧
    (∀ m0, a 0 = .error m0 → isRateLimitedMonitor m0 = false →
      processBlockWithRetry a bn 3 = ([], .error m0)) ∧
    (∀ m0, a 0 = .error m0 → isRateLimitedMonitor m0 = true → a 1 = .ok () →
      processBlockWithRetry a bn 3 = ([backoffDelay 0], .ok ())) ∧
    (∀ m0 m1, a 0 = .error m0 → isRateLimitedMonitor m0 = true →
      a 1 = .error m1 → isRateLimitedMonitor m1 = false →
      processBlockWithRetry a bn 3 = ([backoffDelay 0], .error m1)) ∧
    (∀ m0 m1, a 0 = .error m0 → isRateLimitedMonitor m0 = true →
      a 1 = .error m1 → isRateLimitedMonitor m1 = true → a 2 = .ok () →
      processBlockWithRetry a bn 3 = ([backoffDelay 0, backoffDelay 1], .ok ())) ∧
    (∀ m0 m1 m2, a 0 = .error m0 → isRateLimitedMonitor m0 = true →
      a 1 = .error m1 → isRateLimitedMonitor m1 = true →
      a 2 = .error m2 → isRateLimitedMonitor m2 = false →
      processBlockWithRetry a bn 3 = ([backoffDelay 0, backoffDelay 1], .error m2)) ∧
    (∀ m0 m1 m2, a 0 = .error m0 → isRateLimitedMonitor m0 = true →
      a 1 = .error m1 → isRateLimitedMonitor m1 = true →
      a 2 = .error m2 → isRateLimitedMonitor m2 = true →
      processBlockWithRetry a bn 3 =
        ([backoffDelay 0, backoffDelay 1, backoffDelay 2], .error (exhaustedMsg bn 3))) ∧
    (∀ a' : Nat → Except String Unit, (∀ i, i < 3 → a i = a' i) →
      processBlockWithRetry a bn 3 = processBlockWithRetry a' bn 3) ∧
    (∀ k, backoffDelay k = 3 ^ (k + 4) * 1000) := by
  refine ⟨?_, ?_, ?_, ?_, ?_, ?_, ?_, ?_, fun k => rfl⟩
  · intro h0
    simp [processBlockWithRetry, retryLoopGo, h0]
  · intro m0 h0 r0
    simp [processBlockWithRetry, retryLoopGo, h0, r0]
  · intro m0 h0 r0 h1
    simp [processBlockWithRetry, retryLoopGo, h0, r0, h1]
  · intro m0 m1 h0 r0 h1 r1
    simp [processBlockWithRetry, retryLoopGo, h0, r0, h1, r1]
  · intro m0 m1 h0 r0 h1 r1 h2
    simp [processBlockWithRetry, retryLoopGo, h0, r0, h1, r1, h2]
  · intro m0 m1 m2 h0 r0 h1 r1 h2 r2
    simp [processBlockWithRetry, retryLoopGo, h0, r0, h1, r1, h2, r2]
  · intro m0 m1 m2 h0 r0 h1 r1 h2 r2
    simp [processBlockWithRetry, retryLoopGo, h0, r0, h1, r1, h2, r2]
  · intro a' h
    have h0 := h 0 (by omega)
    have h1 := h 1 (by omega)
    have h2 := h 2 (by omega)
    simp only [processBlockWithRetry, retryLoopGo, h0, h1, h2]

theorem claim_C4_witness :
    isRateLimitedMonitor "rate limit" = true ∧
    processBlockWithRetry (fun _ => .error "rate limit") 7 3 =
      ([backoffDelay 0, backoffDelay 1, backoffDelay 2], .error (exhaustedMsg 7 3)) :=
  ⟨by decide,
   ((claim_C4_retry_classification (fun _ => .error "rate limit") 7).2.2.2.2.2.2.1)
      "rate limit" "rate limit" "rate limit" rfl (by decide) rfl (by decide) rfl (by decide)⟩

/-! ## Batch eligibility check (ethereum.ts 135-211) -/

/-- The `checkJobWorkable` (ethereum.ts 135-170).  `raw` is the outcome of
the `workable()` contract call: `.ok w` the returned boolean, `.error
msg` a rejection.  A rate-limited rejection is re-thrown for the retry
logic (lines 153-158); any other rejection is caught and recorded as a
per-entity error result with `workable: false` (lines 160-168).  On
success the reported block is `blockNumber || latest-head` (JavaScript
truthiness: `0` falls back to the head); on the error path it is
`blockNumber || 0`, which equals `bn` in either case. -/
def checkJobWorkable (address : String) (bn latest : Nat) (raw : Except String Bool) :
    Except String JobStatus :=
  match raw with
  | .ok w =>
    .ok { address := address, workable := w,
          blockNumber := if bn = 0 then latest else bn, error := none }
  | .error msg =>
    if isRateLimitedEth msg then .error msg
    else
      .ok { address := address, workable := false, blockNumber := bn, error := some msg }

/-- The rate-limit filter of `checkMultipleJobsWorkable`
(ethereum.ts 183-191): a rejected result whose message matches the
rate-limit signature. -/
def rejectionRateLimited (r : Except String JobStatus) : Option String :=
  match r with
  | .error m => if isRateLimitedEth m then some m else none
  | .ok _ => none

/-- Whether a raw `workable()` outcome would be re-thrown as
rate-limited by `checkJobWorkable`. -/
def rawIsRateLimited (r : Except String Bool) : Bool :=
  match r with
  | .error msg => isRateLimitedEth msg
  | .ok _ => false

/-- The `checkMultipleJobsWorkable` (ethereum.ts 172-211): run
`checkJobWorkable` for every address (the raw outcome of each entity's
contract call given pointwise by `raws`), re-throw the first
rate-limited rejection, and otherwise settle every remaining rejection
into a per-entity error result (`blockNumber || 0 = bn`, line 206). -/
def checkMultipleJobsWorkable (addrs : List String) (bn latest : Nat)
    (raws : List (Except String Bool)) : Except String (List JobStatus) :=
  let results := (addrs.zip raws).map (fun p => checkJobWorkable p.1 bn latest p.2)
  match results.filterMap rejectionRateLimited with
  | m :: _ => .error m
  | [] =>
    .ok ((addrs.zip results).map (fun p =>
      match p.2 with
      | .ok s => s
      | .error m =>
        { address := p.1, workable := false, blockNumber := bn, error := some m }))

/-- The settled per-entity result when no rate-limited rejection occurs:
success keeps the contract's answer, any other rejection becomes an
error result. -/
def settleRaw (bn latest : Nat) (p : String × Except String Bool) : JobStatus :=
  match p.2 with
  | .ok w =>
    { address := p.1, workable := w,
      blockNumber := if bn = 0 then latest else bn, error := none }
  | .error m =>
    { address := p.1, workable := false, blockNumber := bn, error := some m }

/-- When no raw outcome is rate-limited, the batch succeeds and settles
every entity pointwise. -/
lemma checkMultiple_noRateLimit (bn latest : Nat) :
    ∀ (addrs : List String) (raws : List (Except String Bool)),
      (∀ r ∈ raws, rawIsRateLimited r = false) →
      checkMultipleJobsWorkable addrs bn latest raws =
        .ok ((addrs.zip raws).map (settleRaw bn latest)) := by
  have hsettle : ∀ (addrs : List String) (raws : List (Except String Bool)),
      (∀ r ∈ raws, rawIsRateLimited r = false) →
      ((addrs.zip ((addrs.zip raws).map
          (fun p => checkJobWorkable p.1 bn latest p.2))).map (fun p =>
        match p.2 with
        | .ok s => s
        | .error m =>
          { address := p.1, workable := false, blockNumber := bn, error := some m })) =
        (addrs.zip raws).map (settleRaw bn latest) := by
    intro addrs
    induction addrs with
    | nil => intro raws _; rfl
    | cons a as ih =>
      intro raws h
      cases raws with
      | nil => rfl
      | cons r rs =>
        have hr := h r (List.mem_cons_self r rs)
        have hrest := ih rs (fun r' hr' => h r' (List.mem_cons_of_mem r hr'))
        simp only [List.zip_cons_cons, List.map_cons]
        rw [hrest]
        cases r with
        | ok w => rfl
        | error msg =>
          have : isRateLimitedEth msg = false := by simpa [rawIsRateLimited] using hr
          simp [checkJobWorkable, settleRaw, this]
  intro addrs raws h
  have hfil : ((addrs.zip raws).map
      (fun p => checkJobWorkable p.1 bn latest p.2)).filterMap rejectionRateLimited = [] := by
    rw [List.filterMap_eq_nil_iff]
    intro x hx
    rw [List.mem_map] at hx
    obtain ⟨p, hp, rfl⟩ := hx
    have hr : rawIsRateLimited p.2 = false := h p.2 (List.of_mem_zip hp).2
    cases hp2 : p.2 with
    | ok w => simp [checkJobWorkable, hp2, rejectionRateLimited]
    | error msg =>
      have : isRateLimitedEth msg = false := by
        rw [hp2] at hr
        simpa [rawIsRateLimited] using hr
      simp [checkJobWorkable, hp2, this, rejectionRateLimited]
  unfold checkMultipleJobsWorkable
  simp only [hfil, hsettle addrs raws h]

/-- C7.  If one entity's eligibility check at a unit fails with a
non-retryable (non-rate-limited) error and no entity's check is
rate-limited, the batch still succeeds with one result per entity: the
failing entity gets an error result only, every other entity's result
is its own settled outcome, and the state machine treats the error
result as not eligible — the consecutive counter resets to `0`. -/
theorem claim_C7_per_entity_error (bn latest : Nat) (pre post : List String)
    (rpre rpost : List (Except String Bool)) (a m : String)
    (hlen1 : pre.length = rpre.length) (hlen2 : post.length = rpost.length)
    (hm : isRateLimitedEth m = false)
    (hpre : ∀ r ∈ rpre, rawIsRateLimited r = false)
    (hpost : ∀ r ∈ rpost, rawIsRateLimited r = false) :
    (checkMultipleJobsWorkable (pre ++ a :: post) bn latest (rpre ++ .error m :: rpost) =
      .ok ((pre.zip rpre).map (settleRaw bn latest) ++
        { address := a, workable := false, blockNumber := bn, error := some m } ::
          (post.zip rpost).map (settleRaw bn latest))) ∧
    ((pre.zip rpre).map (settleRaw bn latest) ++
        { address := a, workable := false, blockNumber := bn, error := some m } ::
          (post.zip rpost).map (settleRaw bn latest)).length =
      (pre ++ a :: post).length ∧
    (∀ (cfg : Config) (j : JobInfo) (st : JobStatus) (bn' : Nat) (w : Bool)
        (s : Except String Bool), st.error.isSome = true →
      (jobStatusUpdate cfg j st bn' w s).1.consecutiveWorkableBlocks = 0) := by
  refine ⟨?_, ?_, ?_⟩
  · have h : ∀ r ∈ rpre ++ .error m :: rpost, rawIsRateLimited r = false := by
      intro r hr
      rcases List.mem_append.mp hr with h1 | h2
      · exact hpre r h1
      · rcases List.mem_cons.mp h2 with h3 | h4
        · subst h3; simpa [rawIsRateLimited] using hm
        · exact hpost r h4
    rw [checkMultiple_noRateLimit bn latest _ _ h, List.zip_append hlen1]
    simp [settleRaw]
  · simp only [List.length_append, List.length_map, List.length_cons, List.length_zip]
    omega
  · intro cfg j st bn' w s hst
    refine (jobStatusUpdate_ineligible cfg j st bn' w s ?_).1
    cases he : st.error with
    | none => rw [he] at hst; simp at hst
    | some msg => simp [he]

theorem claim_C7_witness :
    checkMultipleJobsWorkable ["x", "y", "z"] 7 9
        [.ok true, .error "execution reverted", .ok false] =
      .ok [⟨"x", true, 7, none⟩,
           ⟨"y", false, 7, some "execution reverted"⟩,
           ⟨"z", false, 7, none⟩] := by
  have h := claim_C7_per_entity_error 7 9 ["x"] ["z"] [.ok true] [.ok false]
    "y" "execution reverted" rfl rfl (by decide)
    (by intro r hr; simp at hr; subst hr; rfl)
    (by intro r hr; simp at hr; subst hr; rfl)
  simpa [settleRaw] using h.1

/-- C8.  Alert delivery failure is contained: `DiscordService.sendAlert`
returns `false` on a failed `fetch` instead of throwing; the tracked
entity state and the fire decision are completely independent of the
sink outcome; and when an alert fires with a failing sink, the counter
updates are kept — `alertsSent` is incremented, `lastAlertBlock` is set
to the current unit, and the delivery flag is `false` — so for
suppression purposes an alert counts as sent once attempted, not once
delivered. -/
theorem claim_C8_sink_failure_not_rolled_back (cfg : Config) (j : JobInfo)
    (st : JobStatus) (bn : Nat) (w : Bool) (e : String)
    (f1 f2 : Except String Bool) :
    discordSendAlert (.error e) = false ∧
    (jobStatusUpdate cfg j st bn w f1).1 = (jobStatusUpdate cfg j st bn w f2).1 ∧
    (jobStatusUpdate cfg j st bn w f1).2.1 = (jobStatusUpdate cfg j st bn w f2).2.1 ∧
    ((jobStatusUpdate cfg j st bn w (.error e)).2.1 = true →
      (jobStatusUpdate cfg j st bn w (.error e)).1.alertsSent = j.alertsSent + 1 ∧
      (jobStatusUpdate cfg j st bn w (.error e)).1.lastAlertBlock = some bn ∧
      (jobStatusUpdate cfg j st bn w (.error e)).2.2 = false) := by
  refine ⟨rfl, ?_, ?_, ?_⟩
  · simp only [jobStatusUpdate]
    repeat' split
    all_goals rfl
  · simp only [jobStatusUpdate]
    repeat' split
    all_goals rfl
  · intro hf
    have hfields := (jobStatusUpdate_alert_fields cfg j st bn w (.error e)).1 hf
    refine ⟨hfields.1, hfields.2, ?_⟩
    revert hf
    simp only [jobStatusUpdate]
    repeat' split
    all_goals simp_all [discordSendAlert]

theorem claim_C8_witness :
    (jobStatusUpdate cfgW ⟨"0xc", none, none, 2, true, 12, 0, none⟩
        ⟨"0xc", true, 13, none⟩ 13 false (.error "discord down")).2.1 = true ∧
    (jobStatusUpdate cfgW ⟨"0xc", none, none, 2, true, 12, 0, none⟩
        ⟨"0xc", true, 13, none⟩ 13 false (.error "discord down")).1.alertsSent = 1 ∧
    (jobStatusUpdate cfgW ⟨"0xc", none, none, 2, true, 12, 0, none⟩
        ⟨"0xc", true, 13, none⟩ 13 false (.error "discord down")).1.lastAlertBlock =
      some 13 ∧
    (jobStatusUpdate cfgW ⟨"0xc", none, none, 2, true, 12, 0, none⟩
        ⟨"0xc", true, 13, none⟩ 13 false (.error "discord down")).2.2 = false := by
  have hf : (jobStatusUpdate cfgW ⟨"0xc", none, none, 2, true, 12, 0, none⟩
      ⟨"0xc", true, 13, none⟩ 13 false (.error "discord down")).2.1 = true := by decide
  have h := (claim_C8_sink_failure_not_rolled_back cfgW
    ⟨"0xc", none, none, 2, true, 12, 0, none⟩ ⟨"0xc", true, 13, none⟩ 13 false
    "discord down" (.ok true) (.ok true)).2.2.2 hf
  exact ⟨hf, h.1, h.2.1, h.2.2⟩

/-! ## Tick scheduling (monitor.ts 57-110)

`start` installs
`setInterval(() => this.monitoringLoop().catch(...), interval)`
(monitor.ts 68-75).  The callback invokes `monitoringLoop`
unconditionally: neither the callback nor `monitoringLoop` consults any
in-flight flag (`isRunning` only guards a second `start`), and
`monitoringLoop` is `async` with internal `await` suspension points, so
a timer fire that arrives while a previous execution is still pending
starts a second concurrent execution.  The scheduler is modelled by the
events it reacts to; its only state is the number of `monitoringLoop`
executions currently in flight. -/

/-- A scheduler event: the interval timer firing (running the
`setInterval` callback) or an in-flight `monitoringLoop` execution
settling. -/
inductive SchedEvent where
  | timerFire
  | tickComplete
deriving Repr, DecidableEq

/-- Effect of one event on the number of in-flight `monitoringLoop`
executions: the callback of monitor.ts 69 starts one unconditionally; a
completion ends one. -/
def ticksInFlightStep (n : Nat) : SchedEvent → Nat
  | .timerFire => n + 1
  | .tickComplete => n - 1

/-- In-flight `monitoringLoop` executions after a sequence of scheduler
events, starting idle. -/
def ticksInFlight (events : List SchedEvent) : Nat :=
  events.foldl ticksInFlightStep 0

/-- C9, counterexample to the claim as stated.  The claim says a
timer fire arriving while a tick is in progress is dropped, so at most
one tick is ever in flight.  But the `setInterval` callback
(monitor.ts 69) invokes `monitoringLoop` unconditionally — there is no
in-flight guard — so after two timer fires with no completion in
between, two executions are in flight. -/
theorem claim_C9_counterexample :
    ticksInFlight [.timerFire, .timerFire] = 2 ∧ ¬(2 ≤ 1) :=
  ⟨rfl, by decide⟩

/-- C9 (amended).  A timer fire is never dropped: it always starts
one more `monitoringLoop` execution, whatever is already in flight, so
`k` consecutive fires without completions put `k` executions in flight —
overlap of the per-tick scan is unbounded, limited only by `stop()`
clearing the interval. -/
theorem claim_C9_no_overlap_guard :
    (∀ events : List SchedEvent,
      ticksInFlight (events ++ [.timerFire]) = ticksInFlight events + 1) ∧
    (∀ k : Nat, ticksInFlight (List.replicate k .timerFire) = k) := by
  constructor
  · intro events
    rw [ticksInFlight, ticksInFlight, List.foldl_append]
    rfl
  · have hgen : ∀ (k n : Nat),
        (List.replicate k SchedEvent.timerFire).foldl ticksInFlightStep n = n + k := by
      intro k
      induction k with
      | zero => intro n; simp
      | succ m ih =>
        intro n
        rw [List.replicate_succ, List.foldl_cons, ih]
        simp [ticksInFlightStep]
        omega
    intro k
    rw [ticksInFlight, hgen]
    omega

/-! ## SQLite persistence (sqlite.ts 65-137)

A stored `jobs` row and the encode/decode pair of
`SQLiteDatabase.upsertJob` / `getJob`.  The store is the table keyed by
the `address` primary key (`INSERT OR REPLACE`). -/

/-- A row of the `jobs` table (`DatabaseJob`), with `NULL` as `none`. -/
structure DatabaseJob where
  address : String
  name : Option String
  last_worked_block : Option Nat
  consecutive_workable_blocks : Nat
  is_currently_workable : Nat
  last_checked_block : Nat
  alerts_sent : Nat
  last_alert_block : Option Nat
deriving Repr, DecidableEq

/-- JavaScript `x || null` / `x || undefined` on an optional string:
the empty string is falsy. -/
def jsStrOrNull (o : Option String) : Option String :=
  match o with
  | none => none
  | some s => if s = "" then none else some s

/-- JavaScript `x || null` / `x || undefined` on an optional number:
`0` is falsy. -/
def jsNatOrNull (o : Option Nat) : Option Nat :=
  match o with
  | none => none
  | some n => if n = 0 then none else some n

/-- The row written by `upsertJob` (sqlite.ts 82-91):
`jobInfo.name || null`, `jobInfo.lastWorkedBlock || null`,
`jobInfo.isCurrentlyWorkable ? 1 : 0`, `jobInfo.lastAlertBlock || null`. -/
def upsertRow (j : JobInfo) : DatabaseJob :=
  { address := j.address,
    name := jsStrOrNull j.name,
    last_worked_block := jsNatOrNull j.lastWorkedBlock,
    consecutive_workable_blocks := j.consecutiveWorkableBlocks,
    is_currently_workable := if j.isCurrentlyWorkable then 1 else 0,
    last_checked_block := j.lastCheckedBlock,
    alerts_sent := j.alertsSent,
    last_alert_block := jsNatOrNull j.lastAlertBlock }

/-- The `jobs` table, keyed by the `address` primary key. -/
def Store : Type := String → Option DatabaseJob

/-- The `upsertJob` (sqlite.ts 65-106): `INSERT OR REPLACE` of the encoded
row under its address. -/
def upsertJob (store : Store) (j : JobInfo) : Store :=
  Function.update store j.address (some (upsertRow j))

/-- The decode step of `getJob` (sqlite.ts 118-132): the guard
`if (result && result.address)` is JavaScript truthiness — an empty
`address` string is falsy and yields `null` — and the optional fields
are read back as `result.x || undefined`. -/
def rowToJobInfo (row : DatabaseJob) : Option JobInfo :=
  if row.address = "" then none
  else
    some { address := row.address,
           name := jsStrOrNull row.name,
           lastWorkedBlock := jsNatOrNull row.last_worked_block,
           consecutiveWorkableBlocks := row.consecutive_workable_blocks,
           isCurrentlyWorkable := decide (row.is_currently_workable ≠ 0),
           lastCheckedBlock := row.last_checked_block,
           alertsSent := row.alerts_sent,
           lastAlertBlock := jsNatOrNull row.last_alert_block }

/-- The `getJob` (sqlite.ts 108-137): look up the row (an absent row gives
`getAsObject`'s empty object, whose `address` is falsy) and decode it. -/
def getJob (store : Store) (address : String) : Option JobInfo :=
  match store address with
  | none => none
  | some row => rowToJobInfo row

/-- The `x || null` is the identity away from the falsy string. -/
lemma jsStrOrNull_of_ne (o : Option String) (h : o ≠ some "") : jsStrOrNull o = o := by
  cases o with
  | none => rfl
  | some s =>
    have : s ≠ "" := fun hs => h (by rw [hs])
    simp [jsStrOrNull, this]

/-- The `x || null` is the identity away from the falsy number. -/
lemma jsNatOrNull_of_ne (o : Option Nat) (h : o ≠ some 0) : jsNatOrNull o = o := by
  cases o with
  | none => rfl
  | some n =>
    have : n ≠ 0 := fun hn => h (by rw [hn])
    simp [jsNatOrNull, this]

/-- Fixture for the C10 counterexample: a `JobInfo` whose `address` is
the empty string but which satisfies all of the claim's provisos. -/
def jC10 : JobInfo := ⟨"", some "n", some 5, 3, true, 7, 2, some 6⟩

/-- Fixture: empty jobs table. -/
def storeC10 : Store := fun _ => none

/-- C10, counterexample to the claim as stated.  The claim's
provisos (`name ≠ ""`, `lastWorkedBlock ≠ 0`, `lastAlertBlock ≠ 0`) all
hold for `jC10`, yet `getJob` after `upsertJob` returns `null` rather
than the stored record: `jC10.address = ""` is JavaScript-falsy, so the
guard `if (result && result.address)` (sqlite.ts 118) rejects the row
that was just written. -/
theorem claim_C10_counterexample :
    jC10.name ≠ some "" ∧ jC10.lastWorkedBlock ≠ some 0 ∧ jC10.lastAlertBlock ≠ some 0 ∧
    getJob (upsertJob storeC10 jC10) jC10.address = none :=
  ⟨by decide, by decide, by decide, by decide⟩

/-- C10 (amended).  For every `JobInfo` `j` with a non-empty
`address`: provided `name` is not the empty string and
`lastWorkedBlock` and `lastAlertBlock` are not `0`, `getJob (upsertJob
store j) j.address` returns a record equal to `j` on all persisted
fields; and when one of those optional fields is `0` (or `name` is the
empty string), the read-back value is absent instead of the stored
value. -/
theorem claim_C10_roundtrip (store : Store) (j : JobInfo) (haddr : j.address ≠ "")
    (hname : j.name ≠ some "") (hlwb : j.lastWorkedBlock ≠ some 0)
    (hlab : j.lastAlertBlock ≠ some 0) :
    getJob (upsertJob store j) j.address = some j ∧
    getJob (upsertJob store { j with lastWorkedBlock := some 0 }) j.address =
      some { j with lastWorkedBlock := none } ∧
    getJob (upsertJob store { j with lastAlertBlock := some 0 }) j.address =
      some { j with lastAlertBlock := none } ∧
    getJob (upsertJob store { j with name := some "" }) j.address =
      some { j with name := none } := by
  have hbool : ∀ b : Bool, decide ((if b then 1 else 0) ≠ 0) = b := by decide
  have hz : jsNatOrNull (some 0) = none := rfl
  have he : jsStrOrNull (some "") = none := rfl
  have hn : jsNatOrNull none = none := rfl
  have hns : jsStrOrNull none = none := rfl
  refine ⟨?_, ?_, ?_, ?_⟩ <;>
  · simp [getJob, upsertJob, Function.update_same, upsertRow, rowToJobInfo, haddr,
      hbool, jsStrOrNull_of_ne _ hname, jsNatOrNull_of_ne _ hlwb,
      jsNatOrNull_of_ne _ hlab, hz, he, hn, hns]

theorem claim_C10_witness :
    getJob (upsertJob storeC10 ⟨"0xd", some "Job", some 4, 2, false, 9, 1, some 3⟩) "0xd" =
      some ⟨"0xd", some "Job", some 4, 2, false, 9, 1, some 3⟩ ∧
    getJob (upsertJob storeC10
        ⟨"0xd", some "Job", some 0, 2, false, 9, 1, some 3⟩) "0xd" =
      some ⟨"0xd", some "Job", none, 2, false, 9, 1, some 3⟩ :=
  ⟨(claim_C10_roundtrip storeC10 ⟨"0xd", some "Job", some 4, 2, false, 9, 1, some 3⟩
      (by decide) (by decide) (by decide) (by decide)).1,
   (claim_C10_roundtrip storeC10 ⟨"0xd", some "Job", some 4, 2, false, 9, 1, some 3⟩
      (by decide) (by decide) (by decide) (by decide)).2.1⟩

end Monitoring
